import Mathlib

/-!
Verification development for the LinkedIn jobs scraper
(source file: src/selenium-linkedin.py).

The source drives a Selenium browser session. We give a shallow embedding:
the browser/DOM is an abstract environment supplied as a structure of
functions, stateful interaction is explicit state passing, and every
routine additionally emits a trace of observable events (modal checks,
clicks, login invocations, navigations, result reads) so that temporal
claims about the control flow can be stated and settled.

Python string operations used by the source are embedded as functions on
Lean strings via their character lists, matching Python semantics:
`str.strip`, `str.startswith`, and `s.split("?")[0]`.
-/

/-- Embedding of Python `str.strip()`: drop whitespace from both ends. -/
def pyStrip (s : String) : String :=
  ⟨((s.data.dropWhile Char.isWhitespace).reverse.dropWhile Char.isWhitespace).reverse⟩

/-- Embedding of Python `s.startswith(pre)`. -/
def pyStartswith (s pre : String) : Bool :=
  pre.data.isPrefixOf s.data

/-- Embedding of Python `s.split("?")[0]`: the prefix before the first `?`. -/
def pySplitQuery (s : String) : String :=
  ⟨s.data.takeWhile (fun c => c ≠ '?')⟩

/-- Embedding of Python falsiness for `Optional[str]` values:
`None` and the empty string are falsy (`not title` in the source). -/
def pyFalsy : Option String → Bool
  | none => true
  | some s => s == ""

deriving instance DecidableEq for Except

/- ------------------------------------------------------------------
Authwall Recovery Engine (`clear_signin_overlay_or_reauth`,
source lines 147-186), with `is_authwall_modal` as its overlay detector
and `login` as the Session Authenticator, both abstracted into the
browser environment.
------------------------------------------------------------------ -/

/-- The interactive controls `clear_signin_overlay_or_reauth` targets. -/
inductive AuthSel
  /-- CSS `button[aria-label=Dismiss]` -/
  | dismissBtn
  /-- CSS `button[aria-label=Close]` -/
  | closeBtn
  /-- CSS `.artdeco-modal__dismiss` -/
  | modalDismiss
  /-- XPath: a `button` containing the text `Sign in` inside the modal -/
  | signInButton
  /-- XPath: an `a` element containing the text `Sign in` -/
  | signInAnchor
  deriving DecidableEq

/-- Observable events of the recovery engine. -/
inductive AuthEvent
  /-- an `is_authwall_modal` check and its result -/
  | checkModal (present : Bool)
  /-- a `try_click` on a control and whether the click succeeded -/
  | clickAttempt (sel : AuthSel) (ok : Bool)
  /-- an invocation of `login` (the Session Authenticator) -/
  | loginEv
  /-- a `driver.get` back to a URL -/
  | navigateEv (url : String)
  /-- sending ESC to the page body as a last resort -/
  | escapeEv
  deriving DecidableEq

/-- Abstract browser environment for the recovery engine. `B` is the
abstract page/session state. `is_authwall_modal` is a pure observation
(the detector in the source only reads the DOM); `tryClick` returns the
`try_click` boolean of the source together with the successor state;
`login`, `get` and `sendEscape` are the remaining state-changing
interactions (exceptions inside them are swallowed by the source, so
they are total here). -/
structure Browser (B : Type) where
  is_authwall_modal : B → Bool
  tryClick : B → AuthSel → Bool × B
  login : B → String → String → B
  get : B → String → B
  sendEscape : B → B

/-- The dismissal controls tried first, in source order (lines 161). -/
def dismissSelectors : List AuthSel := [.dismissBtn, .closeBtn, .modalDismiss]

/-- The dismissal loop (source lines 161-165): for each selector, if the
click succeeds, re-check the modal; if it is gone, return success.
Returns (recovered?, final state, events). -/
def tryDismiss (env : Browser B) : List AuthSel → B → Bool × B × List AuthEvent
  | [], b => (false, b, [])
  | s :: rest, b =>
    match env.tryClick b s with
    | (true, b1) =>
      if env.is_authwall_modal b1 then
        let (r, b2, tr) := tryDismiss env rest b1
        (r, b2, .clickAttempt s true :: .checkModal true :: tr)
      else
        (true, b1, [.clickAttempt s true, .checkModal false])
    | (false, b1) =>
      let (r, b2, tr) := tryDismiss env rest b1
      (r, b2, .clickAttempt s false :: tr)

/-- The sign-in-control phase (source lines 168-171): try the button
XPath, then the anchor XPath. Returns (state on success if any, final
state, events). -/
def signinPhase (env : Browser B) (b : B) : Option B × B × List AuthEvent :=
  match env.tryClick b .signInButton with
  | (true, b1) => (some b1, b1, [.clickAttempt .signInButton true])
  | (false, b1) =>
    match env.tryClick b1 .signInAnchor with
    | (true, b2) =>
      (some b2, b2, [.clickAttempt .signInButton false, .clickAttempt .signInAnchor true])
    | (false, b2) =>
      (none, b2, [.clickAttempt .signInButton false, .clickAttempt .signInAnchor false])

/-- Recursion core of `clear_signin_overlay_or_reauth` on the attempt
budget, counted as a natural number. If no modal is present, return.
Otherwise try the dismissal controls; if that fails, try a sign-in
control; on success perform `login`, navigate back to `search_url`,
and — only when the budget is still positive, by Python
short-circuiting of `attempts > 0 and is_authwall_modal(driver)` —
re-check the modal, recursing on the decremented budget if it is back.
If no sign-in control is found, send ESC. -/
def clearGo (env : Browser B) (search_url user pwd : String) :
    Nat → B → B × List AuthEvent
  | fuel, b =>
    if env.is_authwall_modal b = false then
      (b, [.checkModal false])
    else
      match tryDismiss env dismissSelectors b with
      | (true, b1, trD) => (b1, .checkModal true :: trD)
      | (false, b1, trD) =>
        match signinPhase env b1 with
        | (some b2, _, trS) =>
          let b3 := env.get (env.login b2 user pwd) search_url
          match fuel with
          | fuel1 + 1 =>
            if env.is_authwall_modal b3 then
              let (b4, tr4) := clearGo env search_url user pwd fuel1 b3
              (b4, .checkModal true :: trD ++ trS
                     ++ [.loginEv, .navigateEv search_url, .checkModal true] ++ tr4)
            else
              (b3, .checkModal true :: trD ++ trS
                     ++ [.loginEv, .navigateEv search_url, .checkModal false])
          | 0 =>
            (b3, .checkModal true :: trD ++ trS ++ [.loginEv, .navigateEv search_url])
        | (none, b2, trS) =>
          (env.sendEscape b2, .checkModal true :: trD ++ trS ++ [.escapeEv])

/-- Embedding of `clear_signin_overlay_or_reauth` (source lines 147-186).
`attempts` is an `Int`, as the source annotates it `int`; the source
only ever tests it for positivity and decrements it at positive
values, so the recursion factors exactly through `attempts.toNat`:
`attempts > 0 ↔ attempts.toNat > 0`, and for positive `attempts` the
`(attempts - 1).toNat` of the recursive call is `attempts.toNat - 1`. -/
def clear_signin_overlay_or_reauth (env : Browser B) (search_url user pwd : String)
    (attempts : Int) (b : B) : B × List AuthEvent :=
  clearGo env search_url user pwd attempts.toNat b

/-- Number of Session Authenticator (`login`) invocations in a trace. -/
def countLogins (tr : List AuthEvent) : Nat :=
  tr.countP fun e => match e with | .loginEv => true | _ => false

/-- Number of re-navigations (`driver.get(search_url)`) in a trace. -/
def countNavs (tr : List AuthEvent) : Nat :=
  tr.countP fun e => match e with | .navigateEv _ => true | _ => false

/- ------------------------------------------------------------------
Pagination Harvester (`collect_links`, source lines 206-250), with
`_find_results_container` abstracted into `containerFound` and the
anchors gathered by the three CSS queries (lines 216-218, concatenated,
possibly overlapping — the set deduplicates) abstracted into `anchors`.
The loop index determines the current page: clicking the control
labelled `Page p` lands on page `p`, so page contents are keyed by the
page number. `clickSel p isIndicator` tells whether the wait-and-click
on the `aria-label=Page p` button (plain or inside
`li.artdeco-pagination__indicator`) succeeds.
------------------------------------------------------------------ -/

/-- Abstract search-results site for `collect_links`. -/
structure SearchSite where
  /-- whether `_find_results_container` resolves a container on page `p` -/
  containerFound : Nat → Bool
  /-- The `href` attributes (already `get_attribute` results, `""` for null)
  of the anchors found in the container on page `p`, in source order -/
  anchors : Nat → List String
  /-- whether the click on the pagination control for page `p` succeeds,
  for the plain selector (`false`) or the indicator-scoped one (`true`) -/
  clickSel : Nat → Bool → Bool

/-- Observable events of the harvester and the surrounding main flow. -/
inductive HarvestEvent
  /-- an invocation of `clear_signin_overlay_or_reauth` -/
  | recovery
  /-- a `harvest()` call that read the results of page `p` -/
  | readResults (p : Nat)
  /-- a successful pagination click onto page `p` -/
  | pageClick (p : Nat)
  deriving DecidableEq

/-- URL prefix required of harvested hrefs (source line 221). -/
def jobsViewBase : String := "https://www.linkedin.com/jobs/view"

/-- Body of the anchor loop (source lines 219-222): strip the href, keep
it when it starts with the jobs-view prefix, insert it with its query
string split off. -/
def addHref (links : Finset String) (href : String) : Finset String :=
  if pyStartswith (pyStrip href) jobsViewBase then
    insert (pySplitQuery (pyStrip href)) links
  else links

/-- The canonical links a list of hrefs contributes (reference form of
the anchor loop, for stating bounds). -/
def canonicalOf (l : List String) : List String :=
  l.filterMap fun href =>
    if pyStartswith (pyStrip href) jobsViewBase then
      some (pySplitQuery (pyStrip href))
    else none

/-- The canonical links page `p` contributes. -/
def canonicalLinks (site : SearchSite) (p : Nat) : List String :=
  canonicalOf (site.anchors p)

/-- Embedding of the nested `harvest()` (source lines 209-222) on page
`p`: if no results container resolves, raise (`TimeoutException`,
modelled as `Except.error`); otherwise fold the anchor loop over the
gathered anchors. -/
def harvest (site : SearchSite) (p : Nat) (links : Finset String) :
    Except String (Finset String) :=
  if site.containerFound p then
    .ok ((site.anchors p).foldl addHref links)
  else
    .error "Jobs results container not found."

/-- The pagination click for page `p` (source lines 230-242): the two
selectors are tried in order, breaking on the first success. -/
def clickedPage (site : SearchSite) (p : Nat) : Bool :=
  site.clickSel p false || site.clickSel p true

/-- The pagination loop (source lines 229-248) over the remaining page
indices: if the click for page `p` fails, stop early and return the
accumulated set; otherwise settle, harvest the new page, and continue. -/
def paginate (site : SearchSite) :
    List Nat → Finset String → Except String (Finset String) × List HarvestEvent
  | [], links => (.ok links, [])
  | p :: rest, links =>
    if clickedPage site p then
      match harvest site p links with
      | .error e => (.error e, [.pageClick p])
      | .ok links1 =>
        let (r, tr) := paginate site rest links1
        (r, .pageClick p :: .readResults p :: tr)
    else
      (.ok links, [])

/-- The page indices that the source line `for page in range(2, max(2, pages + 1))`
iterates over. `pages` is an `Int`, as the `--pages` flag of the source is an
arbitrary `int`. -/
def pageIndices (pages : Int) : List Nat :=
  List.range' 2 ((max 2 (pages + 1)).toNat - 2)

/-- Embedding of `collect_links` (source lines 206-250): harvest page 1,
then run the pagination loop, returning the accumulated set (the
source returns `list(links)` of its Python `set`; membership and
cardinality are what the spec constrains, so the set itself is
returned) together with the event trace. -/
def collect_links (site : SearchSite) (pages : Int) :
    Except String (Finset String) × List HarvestEvent :=
  match harvest site 1 ∅ with
  | .error e => (.error e, [])
  | .ok s1 =>
    let (r, tr) := paginate site (pageIndices pages) s1
    (r, .readResults 1 :: tr)

/-- Union of the canonical links of pages `1..m` (what a run that
visited pages `1..m` accumulates). -/
def visitedUnion (site : SearchSite) (m : Nat) : Finset String :=
  (List.range' 1 m).foldl (fun s p => s ∪ (canonicalLinks site p).toFinset) ∅

/-- Number of `harvest()` result reads in a trace. -/
def countReads (tr : List HarvestEvent) : Nat :=
  tr.countP fun e => match e with | .readResults _ => true | _ => false

/-- The main flow around the harvester (source lines 315-321): navigate
to the search URL, run the Authwall Recovery Engine once, then run
`collect_links`. Projected onto harvester events, the recovery
invocation precedes the whole `collect_links` trace. -/
def mainHarvestTrace (site : SearchSite) (pages : Int) : List HarvestEvent :=
  HarvestEvent.recovery :: (collect_links site pages).2

/-- The guard property claimed of the trace: results are read only when
a recovery run has happened since the start or since the last
pagination click. -/
def readsGuarded : Bool → List HarvestEvent → Bool
  | _, [] => true
  | _, .recovery :: tr => readsGuarded true tr
  | _, .pageClick _ :: tr => readsGuarded false tr
  | armed, .readResults _ :: tr => armed && readsGuarded armed tr

/-- Weaker guard: a recovery run happens before the first result read. -/
def firstReadGuarded : List HarvestEvent → Bool
  | [] => true
  | .recovery :: _ => true
  | .readResults _ :: _ => false
  | .pageClick _ :: tr => firstReadGuarded tr

/- ------------------------------------------------------------------
Detail Extractor (`scrape_job`, source lines 255-294) with its helper
`first_text` (source lines 104-112). Field selectors within the top
card are abstracted into an enumeration; the detail page supplies, for
each selector, the text of the first element it resolves to (or `none`
when absent / timed out). The two best-effort expansion clicks (lines
258-259) are swallowed whatever happens and do not affect any output.
------------------------------------------------------------------ -/

/-- The per-field selectors used inside the top card. -/
inductive FieldSel
  /-- CSS `h1` -/
  | h1
  /-- CSS `.jobs-unified-top-card__job-title` -/
  | topJobTitle
  /-- CSS `a.jobs-unified-top-card__company-name` -/
  | companyLink
  /-- CSS `.jobs-unified-top-card__company-name` -/
  | companyPlain
  /-- CSS `.jobs-unified-top-card__bullet` -/
  | bullet
  /-- CSS `[data-test-topcard-location]` -/
  | topcardLoc
  /-- CSS `.jobs-unified-top-card__workplace-type` -/
  | workplaceType
  /-- CSS `.jobs-unified-top-card__posted-date` -/
  | postedDate
  /-- CSS `[data-test-posted-date]` -/
  | postedDateAlt
  /-- CSS `.jobs-unified-top-card__job-insight` -/
  | jobInsight
  deriving DecidableEq

/-- Abstract detail page for `scrape_job`. -/
structure DetailPage where
  /-- an unexpected exception is raised somewhere in the body (caught by
  the blanket `except Exception` of the source, line 292) -/
  pageError : Bool
  /-- whether `.jobs-unified-top-card` appears within the bounded wait
  (line 261; absence raises `TimeoutException`, caught at line 289) -/
  topCardPresent : Bool
  /-- text of the first element the given top-card selector resolves to,
  `none` when it resolves to nothing within the wait -/
  field : FieldSel → Option String
  /-- texts of the `.jobs-description__content .jobs-box__html-content`
  elements (line 273), in DOM order -/
  descBlocks : List String

/-- Embedding of `first_text` (source lines 104-112): try each selector
in order; return the first resolved text that is non-empty after
stripping; `none` when all candidates are exhausted. -/
def first_text (page : DetailPage) : List FieldSel → Option String
  | [] => none
  | s :: rest =>
    match page.field s with
    | none => first_text page rest
    | some raw =>
      if pyStrip raw == "" then first_text page rest else some (pyStrip raw)

/-- The title extraction of `scrape_job` (source line 263). -/
def titleOf (page : DetailPage) : Option String :=
  first_text page [.h1, .topJobTitle]

/-- The company extraction of `scrape_job` (source lines 264-265). -/
def companyOf (page : DetailPage) : Option String :=
  first_text page [.companyLink, .companyPlain]

/-- The location extraction of `scrape_job` (source lines 266-267). -/
def locationOf (page : DetailPage) : Option String :=
  first_text page [.bullet, .topcardLoc]

/-- The workplace-type extraction of `scrape_job` (source line 268). -/
def workplaceOf (page : DetailPage) : Option String :=
  first_text page [.workplaceType]

/-- The posted-date extraction of `scrape_job` (source lines 269-270). -/
def postedOf (page : DetailPage) : Option String :=
  first_text page [.postedDate, .postedDateAlt]

/-- The schedule extraction of `scrape_job` (source line 271). -/
def scheduleOf (page : DetailPage) : Option String :=
  first_text page [.jobInsight]

/-- The description extraction of `scrape_job` (source lines 273-274):
the stripped text of the first description block if any block exists,
else `None`. Unlike `first_text`, an empty stripped text still yields
`some ""`. -/
def descOf (page : DetailPage) : Option String :=
  match page.descBlocks with
  | [] => none
  | d :: _ => some (pyStrip d)

/-- The record `scrape_job` emits (source lines 279-288); every field
except the source URL is `Optional[str]`. -/
structure JobRecord where
  job_title : Option String
  company_name : Option String
  company_location : Option String
  work_method : Option String
  post_date : Option String
  work_time : Option String
  job_description : Option String
  url : String
  deriving DecidableEq

/-- The record literal of `scrape_job` (source lines 279-288). -/
def scrapeRecord (page : DetailPage) (url : String) : JobRecord :=
  { job_title := titleOf page
    company_name := companyOf page
    company_location := locationOf page
    work_method := workplaceOf page
    post_date := postedOf page
    work_time := scheduleOf page
    job_description := descOf page
    url := url }

/-- Embedding of `scrape_job` (source lines 255-294): any exception
(timeout on the top card, or anything else) is caught and yields
`None`; otherwise the fields are extracted independently and the
record is emitted unless both title and description are Python-falsy
(line 276). -/
def scrape_job (page : DetailPage) (url : String) : Option JobRecord :=
  if page.pageError then none
  else if page.topCardPresent = false then none
  else if pyFalsy (titleOf page) && pyFalsy (descOf page) then none
  else some (scrapeRecord page url)

/-- The per-link loop of `main` (source lines 324-328): each link is
scraped; a `None` outcome is skipped and the loop proceeds to the next
link. -/
def processLinks (env : String → DetailPage) (links : List String) : List JobRecord :=
  links.foldl
    (fun recs url =>
      match scrape_job (env url) url with
      | some r => recs ++ [r]
      | none => recs)
    []

/- ------------------------------------------------------------------
Concrete fixtures used to witness the theorems below.
------------------------------------------------------------------ -/

/-- A concrete browser for exercising the re-authentication path: state 0
shows the overlay and all dismissal clicks fail there, the sign-in
button click moves to state 1, login and navigation advance the state,
and state 3 (reached as get applied to login of state 1) shows no
overlay. -/
def reauthBrowser : Browser Nat :=
  { is_authwall_modal := fun b => b == 0
    tryClick := fun b s =>
      match s with
      | .signInButton => if b == 0 then (true, 1) else (false, b)
      | _ => (false, b)
    login := fun b _ _ => b + 1
    get := fun b _ => b + 1
    sendEscape := fun b => b }

/-- A concrete browser for exercising the dismissal path: state 0 shows
the overlay, the first dismissal click moves to state 1 where the
overlay is gone. -/
def dismissBrowser : Browser Nat :=
  { is_authwall_modal := fun b => b == 0
    tryClick := fun b s =>
      match s with
      | .dismissBtn => if b == 0 then (true, 1) else (false, b)
      | _ => (false, b)
    login := fun b _ _ => b + 10
    get := fun b _ => b
    sendEscape := fun b => b }

/-- A concrete browser on which the overlay never goes away and the
sign-in control always works: the engine performs the worst-case
`n + 1` login cycles on it. -/
def stubbornBrowser : Browser Nat :=
  { is_authwall_modal := fun _ => true
    tryClick := fun b s =>
      match s with
      | .signInButton => (true, b + 1)
      | _ => (false, b)
    login := fun b _ _ => b + 1
    get := fun b _ => b + 1
    sendEscape := fun b => b }

/-- A search site on which pagination onto page 2 succeeds, results
containers always resolve, and no anchors are present. -/
def paginatingSite : SearchSite :=
  { containerFound := fun _ => true
    anchors := fun _ => []
    clickSel := fun p _ => p == 2 }

/-- A search site with overlapping qualifying anchors on every page and
a clickable page-2 control. -/
def richSite : SearchSite :=
  { containerFound := fun _ => true
    anchors := fun _ =>
      [" https://www.linkedin.com/jobs/view/101?refId=abc ",
        "https://www.linkedin.com/jobs/view/101",
        "https://careers.example.net/post/7"]
    clickSel := fun p _ => p == 2 }

/-- A search site with two real pages of distinct links and no page-3
control. -/
def twoPageSite : SearchSite :=
  { containerFound := fun _ => true
    anchors := fun p =>
      if p == 1 then ["https://www.linkedin.com/jobs/view/11?src=a"]
      else if p == 2 then ["https://www.linkedin.com/jobs/view/22"]
      else []
    clickSel := fun p _ => p == 2 }

/-- A search site whose pagination controls never resolve. -/
def onePageSite : SearchSite :=
  { containerFound := fun _ => true
    anchors := fun _ => ["https://www.linkedin.com/jobs/view/5?trk=x"]
    clickSel := fun _ _ => false }

/-- A detail page where no top-card field resolves and only a
description block is present. -/
def descOnlyPage : DetailPage :=
  { pageError := false
    topCardPresent := true
    field := fun _ => none
    descBlocks := ["  We are hiring a junior data analyst.  "] }

/-- The fixture detail page of the C8 scenario: title and company
resolve, no description block exists. -/
def analystPage : DetailPage :=
  { pageError := false
    topCardPresent := true
    field := fun s =>
      match s with
      | .h1 => some "Data Analyst"
      | .companyLink => some "Acme Corp"
      | _ => none
    descBlocks := [] }

/-- The input URL of the C8 scenario fixture. -/
def analystUrl : String := "https://www.linkedin.com/jobs/view/12345"

/-- A detail page whose top card never appears within the bounded wait. -/
def timeoutPage : DetailPage :=
  { pageError := false
    topCardPresent := false
    field := fun _ => none
    descBlocks := [] }

/-- A detail page that scrapes successfully. -/
def goodPage : DetailPage :=
  { pageError := false
    topCardPresent := true
    field := fun s => match s with | .h1 => some "Engineer" | _ => none
    descBlocks := [] }

/-- A page environment mapping one bad URL to the timing-out page and
every other URL to a good page. -/
def mixedPages : String → DetailPage := fun url =>
  if url == "https://www.linkedin.com/jobs/view/bad" then timeoutPage else goodPage

/- ------------------------------------------------------------------
Helper lemmas: the recovery engine.
------------------------------------------------------------------ -/

lemma countLogins_nil : countLogins [] = 0 := rfl

lemma countLogins_cons (e : AuthEvent) (tr : List AuthEvent) :
    countLogins (e :: tr) =
      countLogins tr + (match e with | .loginEv => 1 | _ => 0) := by
  cases e <;> simp [countLogins, List.countP_cons]

lemma countLogins_append (t1 t2 : List AuthEvent) :
    countLogins (t1 ++ t2) = countLogins t1 + countLogins t2 := by
  simp [countLogins, List.countP_append]

lemma countNavs_nil : countNavs [] = 0 := rfl

lemma countNavs_cons (e : AuthEvent) (tr : List AuthEvent) :
    countNavs (e :: tr) =
      countNavs tr + (match e with | .navigateEv _ => 1 | _ => 0) := by
  cases e <;> simp [countNavs, List.countP_cons]

lemma countNavs_append (t1 t2 : List AuthEvent) :
    countNavs (t1 ++ t2) = countNavs t1 + countNavs t2 := by
  simp [countNavs, List.countP_append]

/-- The dismissal loop never invokes the Session Authenticator. -/
lemma tryDismiss_countLogins (env : Browser B) :
    ∀ (sels : List AuthSel) (b : B), countLogins (tryDismiss env sels b).2.2 = 0 := by
  intro sels
  induction sels with
  | nil => intro b; rfl
  | cons s rest ih =>
    intro b
    simp only [tryDismiss]
    rcases hc : env.tryClick b s with ⟨ok, b1⟩
    cases ok
    · have := ih b1
      rcases hrec : tryDismiss env rest b1 with ⟨r, b2, tr⟩
      simp only [hrec] at this
      simp [hrec, countLogins_cons, this]
    · by_cases hm : env.is_authwall_modal b1
      · have := ih b1
        rcases hrec : tryDismiss env rest b1 with ⟨r, b2, tr⟩
        simp only [hrec] at this
        simp [hm, hrec, countLogins_cons, this]
      · simp [hm, countLogins_cons, countLogins_nil]

/-- The dismissal loop never navigates. -/
lemma tryDismiss_countNavs (env : Browser B) :
    ∀ (sels : List AuthSel) (b : B), countNavs (tryDismiss env sels b).2.2 = 0 := by
  intro sels
  induction sels with
  | nil => intro b; rfl
  | cons s rest ih =>
    intro b
    simp only [tryDismiss]
    rcases hc : env.tryClick b s with ⟨ok, b1⟩
    cases ok
    · have := ih b1
      rcases hrec : tryDismiss env rest b1 with ⟨r, b2, tr⟩
      simp only [hrec] at this
      simp [hrec, countNavs_cons, this]
    · by_cases hm : env.is_authwall_modal b1
      · have := ih b1
        rcases hrec : tryDismiss env rest b1 with ⟨r, b2, tr⟩
        simp only [hrec] at this
        simp [hm, hrec, countNavs_cons, this]
      · simp [hm, countNavs_cons, countNavs_nil]

/-- When the dismissal loop reports success, the state it returns has no
overlay: success is only reported right after a re-check came back
clean. -/
lemma tryDismiss_true_noModal (env : Browser B) :
    ∀ (sels : List AuthSel) (b b1 : B) (tr : List AuthEvent),
      tryDismiss env sels b = (true, b1, tr) → env.is_authwall_modal b1 = false := by
  intro sels
  induction sels with
  | nil => intro b b1 tr h; simp [tryDismiss] at h
  | cons s rest ih =>
    intro b b1 tr h
    simp only [tryDismiss] at h
    rcases hc : env.tryClick b s with ⟨ok, bx⟩
    rw [hc] at h
    cases ok
    · simp only at h
      rcases hrec : tryDismiss env rest bx with ⟨r, b2, tr2⟩
      rw [hrec] at h
      simp only [Prod.mk.injEq] at h
      obtain ⟨hr, hb, -⟩ := h
      exact ih bx b1 tr2 (by rw [hrec, hr, hb])
    · by_cases hm : env.is_authwall_modal bx
      · simp only [hm, if_true] at h
        rcases hrec : tryDismiss env rest bx with ⟨r, b2, tr2⟩
        rw [hrec] at h
        simp only [Prod.mk.injEq] at h
        obtain ⟨hr, hb, -⟩ := h
        exact ih bx b1 tr2 (by rw [hrec, hr, hb])
      · simp only [Bool.not_eq_true] at hm
        simp only [hm, Bool.false_eq_true, if_false] at h
        simp only [Prod.mk.injEq] at h
        obtain ⟨-, hb, -⟩ := h
        rw [← hb]
        exact hm

/-- The sign-in phase never invokes the Session Authenticator itself. -/
lemma signinPhase_countLogins (env : Browser B) (b : B) :
    countLogins (signinPhase env b).2.2 = 0 := by
  simp only [signinPhase]
  rcases h1 : env.tryClick b .signInButton with ⟨ok1, b1⟩
  cases ok1
  · rcases h2 : env.tryClick b1 .signInAnchor with ⟨ok2, b2⟩
    cases ok2 <;> simp [h2, countLogins_cons, countLogins_nil]
  · simp [countLogins_cons, countLogins_nil]

/-- The sign-in phase never navigates itself. -/
lemma signinPhase_countNavs (env : Browser B) (b : B) :
    countNavs (signinPhase env b).2.2 = 0 := by
  simp only [signinPhase]
  rcases h1 : env.tryClick b .signInButton with ⟨ok1, b1⟩
  cases ok1
  · rcases h2 : env.tryClick b1 .signInAnchor with ⟨ok2, b2⟩
    cases ok2 <;> simp [h2, countNavs_cons, countNavs_nil]
  · simp [countNavs_cons, countNavs_nil]

/-- Bounded recursion of the recovery engine: at most `fuel + 1` login
cycles, whatever the page does, and every login is paired with exactly
one re-navigation. -/
lemma clearGo_login_le (env : Browser B) (url user pwd : String) :
    ∀ (fuel : Nat) (b : B),
      countLogins (clearGo env url user pwd fuel b).2 ≤ fuel + 1 ∧
      countNavs (clearGo env url user pwd fuel b).2 =
        countLogins (clearGo env url user pwd fuel b).2 := by
  intro fuel
  induction fuel with
  | zero =>
    intro b
    by_cases h0 : env.is_authwall_modal b = false
    · have htr : (clearGo env url user pwd 0 b).2 = [.checkModal false] := by
        rw [clearGo]; simp [h0]
      rw [htr]
      simp [countLogins_cons, countLogins_nil, countNavs_cons, countNavs_nil]
    · have hD := tryDismiss_countLogins env dismissSelectors b
      have hDn := tryDismiss_countNavs env dismissSelectors b
      rcases hdis : tryDismiss env dismissSelectors b with ⟨r, b1, trD⟩
      rw [hdis] at hD hDn
      simp only at hD hDn
      cases r
      · have hS := signinPhase_countLogins env b1
        have hSn := signinPhase_countNavs env b1
        rcases hsig : signinPhase env b1 with ⟨o, bmid, trS⟩
        rw [hsig] at hS hSn
        simp only at hS hSn
        cases o with
        | none =>
          have htr : (clearGo env url user pwd 0 b).2 =
              .checkModal true :: trD ++ trS ++ [.escapeEv] := by
            rw [clearGo]; simp [h0, hdis, hsig]
          rw [htr]
          simp [countLogins_cons, countLogins_append, countLogins_nil,
            countNavs_cons, countNavs_append, countNavs_nil, hD, hS, hDn, hSn]
        | some b2 =>
          have htr : (clearGo env url user pwd 0 b).2 =
              .checkModal true :: trD ++ trS ++ [.loginEv, .navigateEv url] := by
            rw [clearGo]; simp [h0, hdis, hsig]
          rw [htr]
          simp [countLogins_cons, countLogins_append, countLogins_nil,
            countNavs_cons, countNavs_append, countNavs_nil, hD, hS, hDn, hSn]
      · have htr : (clearGo env url user pwd 0 b).2 = .checkModal true :: trD := by
          rw [clearGo]; simp [h0, hdis]
        rw [htr]
        simp [countLogins_cons, countNavs_cons, hD, hDn]
  | succ m ih =>
    intro b
    by_cases h0 : env.is_authwall_modal b = false
    · have htr : (clearGo env url user pwd (m + 1) b).2 = [.checkModal false] := by
        rw [clearGo]; simp [h0]
      rw [htr]
      simp [countLogins_cons, countLogins_nil, countNavs_cons, countNavs_nil]
    · have hD := tryDismiss_countLogins env dismissSelectors b
      have hDn := tryDismiss_countNavs env dismissSelectors b
      rcases hdis : tryDismiss env dismissSelectors b with ⟨r, b1, trD⟩
      rw [hdis] at hD hDn
      simp only at hD hDn
      cases r
      · have hS := signinPhase_countLogins env b1
        have hSn := signinPhase_countNavs env b1
        rcases hsig : signinPhase env b1 with ⟨o, bmid, trS⟩
        rw [hsig] at hS hSn
        simp only at hS hSn
        cases o with
        | none =>
          have htr : (clearGo env url user pwd (m + 1) b).2 =
              .checkModal true :: trD ++ trS ++ [.escapeEv] := by
            rw [clearGo]; simp [h0, hdis, hsig]
          rw [htr]
          simp [countLogins_cons, countLogins_append, countLogins_nil,
            countNavs_cons, countNavs_append, countNavs_nil, hD, hS, hDn, hSn]
        | some b2 =>
          by_cases hmod :
              env.is_authwall_modal (env.get (env.login b2 user pwd) url) = true
          · have hrec := ih (env.get (env.login b2 user pwd) url)
            rcases hclr : clearGo env url user pwd m
                (env.get (env.login b2 user pwd) url) with ⟨b4, tr4⟩
            rw [hclr] at hrec
            simp only at hrec
            have htr : (clearGo env url user pwd (m + 1) b).2 =
                .checkModal true :: trD ++ trS
                  ++ [.loginEv, .navigateEv url, .checkModal true] ++ tr4 := by
              rw [clearGo]
              simp [h0, hdis, hsig, hmod, hclr]
            rw [htr]
            simp only [countLogins_cons, countLogins_append, countLogins_nil,
              countNavs_cons, countNavs_append, countNavs_nil, hD, hS, hDn, hSn]
            omega
          · simp only [Bool.not_eq_true] at hmod
            have htr : (clearGo env url user pwd (m + 1) b).2 =
                .checkModal true :: trD ++ trS
                  ++ [.loginEv, .navigateEv url, .checkModal false] := by
              rw [clearGo]
              simp [h0, hdis, hsig, hmod]
            rw [htr]
            simp [countLogins_cons, countLogins_append, countLogins_nil,
              countNavs_cons, countNavs_append, countNavs_nil, hD, hS, hDn, hSn]
      · have htr : (clearGo env url user pwd (m + 1) b).2 =
            .checkModal true :: trD := by
          rw [clearGo]; simp [h0, hdis]
        rw [htr]
        simp [countLogins_cons, countNavs_cons, hD, hDn]

/- ------------------------------------------------------------------
Helper lemmas: the harvester.
------------------------------------------------------------------ -/

lemma countReads_nil : countReads [] = 0 := rfl

lemma countReads_cons (e : HarvestEvent) (tr : List HarvestEvent) :
    countReads (e :: tr) =
      countReads tr + (match e with | .readResults _ => 1 | _ => 0) := by
  cases e <;> simp [countReads, List.countP_cons]

/-- The anchor-loop fold equals union with the canonical links. -/
lemma foldl_addHref (l : List String) :
    ∀ s : Finset String, l.foldl addHref s = s ∪ (canonicalOf l).toFinset := by
  induction l with
  | nil => intro s; simp [canonicalOf]
  | cons h t ih =>
    intro s
    by_cases hc : pyStartswith (pyStrip h) jobsViewBase
    · simp only [List.foldl_cons, addHref, canonicalOf, List.filterMap_cons, hc,
        if_true]
      rw [ih]
      simp only [canonicalOf] at ih ⊢
      simp [List.toFinset_cons, Finset.insert_union, Finset.union_insert]
    · simp only [List.foldl_cons, addHref, canonicalOf, List.filterMap_cons, hc,
        if_false]
      simpa [canonicalOf] using ih s

/-- Canonical links contain no query separator. -/
lemma canonicalOf_noQuery (l : List String) : ∀ u ∈ canonicalOf l, '?' ∉ u.data := by
  intro u hu
  simp only [canonicalOf, List.mem_filterMap] at hu
  obtain ⟨h, -, he⟩ := hu
  by_cases hc : pyStartswith (pyStrip h) jobsViewBase
  · rw [if_pos hc, Option.some.injEq] at he
    subst he
    intro hmem
    simp only [pySplitQuery] at hmem
    have := List.mem_takeWhile_imp hmem
    simp at this
  · rw [if_neg hc] at he
    cases he

/-- The pagination loop never invokes the recovery engine. -/
lemma paginate_no_recovery (site : SearchSite) :
    ∀ (l : List Nat) (acc : Finset String),
      HarvestEvent.recovery ∉ (paginate site l acc).2 := by
  intro l
  induction l with
  | nil => intro acc; simp [paginate]
  | cons p t ih =>
    intro acc
    simp only [paginate]
    by_cases hc : clickedPage site p
    · simp only [hc, if_true]
      cases hh : harvest site p acc with
      | error e => simp
      | ok acc1 =>
        have hm := ih acc1
        rcases hp : paginate site t acc1 with ⟨r, tr⟩
        rw [hp] at hm
        simp only at hm
        simp [hp, hm]
    · simp [hc]

/-- The harvester `collect_links` never invokes the recovery engine. -/
lemma collect_links_no_recovery (site : SearchSite) (pages : Int) :
    HarvestEvent.recovery ∉ (collect_links site pages).2 := by
  simp only [collect_links]
  cases hh : harvest site 1 ∅ with
  | error e => simp
  | ok s1 =>
    have hm := paginate_no_recovery site (pageIndices pages) s1
    rcases hp : paginate site (pageIndices pages) s1 with ⟨r, tr⟩
    rw [hp] at hm
    simp only at hm
    simp [hp, hm]

/-- Membership / cardinality invariant carried through the pagination
loop: members never contain a query separator and the cardinality grows
by at most `L` per page read. -/
lemma paginate_noQuery_card (site : SearchSite) (L : Nat)
    (hL : ∀ p, (canonicalLinks site p).length ≤ L) :
    ∀ (l : List Nat) (acc : Finset String) (r : Nat),
      (∀ u ∈ acc, '?' ∉ u.data) → acc.card ≤ L * r →
      ∀ s, (paginate site l acc).1 = .ok s →
        (∀ u ∈ s, '?' ∉ u.data) ∧
        s.card ≤ L * (r + countReads (paginate site l acc).2) := by
  intro l
  induction l with
  | nil =>
    intro acc r hmem hcard s hs
    simp only [paginate] at hs ⊢
    rw [Except.ok.injEq] at hs
    subst hs
    exact ⟨hmem, by simpa [countReads_nil] using hcard⟩
  | cons p t ih =>
    intro acc r hmem hcard s hs
    by_cases hc : clickedPage site p
    · cases hh : harvest site p acc with
      | error e =>
        simp only [paginate, hc, if_true, hh] at hs
        simp at hs
      | ok acc1 =>
        have hacc1 : acc1 = acc ∪ (canonicalLinks site p).toFinset := by
          by_cases hcf : site.containerFound p
          · rw [harvest, if_pos hcf] at hh
            rw [Except.ok.injEq] at hh
            rw [← hh, foldl_addHref]
            rfl
          · rw [harvest, if_neg hcf] at hh
            cases hh
        have hmem1 : ∀ u ∈ acc1, '?' ∉ u.data := by
          intro u hu
          rw [hacc1, Finset.mem_union] at hu
          rcases hu with hu | hu
          · exact hmem u hu
          · exact canonicalOf_noQuery _ u (List.mem_toFinset.mp hu)
        have hcard1 : acc1.card ≤ L * (r + 1) := by
          calc acc1.card ≤ acc.card + (canonicalLinks site p).toFinset.card := by
                rw [hacc1]; exact Finset.card_union_le _ _
            _ ≤ L * r + (canonicalLinks site p).length :=
                Nat.add_le_add hcard (List.toFinset_card_le _)
            _ ≤ L * r + L := Nat.add_le_add_left (hL p) _
            _ = L * (r + 1) := by ring
        rcases hp : paginate site t acc1 with ⟨r1, tr1⟩
        have hs1 : r1 = .ok s := by
          simp only [paginate, hc, if_true, hh, hp] at hs
          exact hs
        have hrec := ih acc1 (r + 1) hmem1 hcard1 s (by rw [hp]; exact hs1)
        rw [hp] at hrec
        simp only at hrec
        refine ⟨hrec.1, ?_⟩
        have htr : (paginate site (p :: t) acc).2 =
            .pageClick p :: .readResults p :: tr1 := by
          simp [paginate, hc, hh, hp]
        rw [htr]
        have : r + 1 + countReads tr1 =
            r + countReads (HarvestEvent.pageClick p :: .readResults p :: tr1) := by
          simp [countReads_cons]
          omega
        rw [← this]
        exact hrec.2
    · simp only [paginate, hc, Bool.false_eq_true, if_false] at hs ⊢
      rw [Except.ok.injEq] at hs
      subst hs
      exact ⟨hmem, by simpa [countReads_nil] using hcard⟩

/-- Early stop of the pagination loop: pages before the failing control
are all harvested, then the accumulated set is returned as a normal
result. -/
lemma paginate_early_stop (site : SearchSite) (k : Nat)
    (hfail : clickedPage site k = false) :
    ∀ (l1 l2 : List Nat) (acc : Finset String),
      (∀ j ∈ l1, clickedPage site j = true ∧ site.containerFound j = true) →
      (paginate site (l1 ++ k :: l2) acc).1 =
        .ok (l1.foldl (fun s p => s ∪ (canonicalLinks site p).toFinset) acc) := by
  intro l1
  induction l1 with
  | nil =>
    intro l2 acc _
    simp [paginate, hfail]
  | cons j t ih =>
    intro l2 acc hok
    obtain ⟨hcj, hfj⟩ := hok j (by simp)
    have hh : harvest site j acc =
        .ok (acc ∪ (canonicalLinks site j).toFinset) := by
      rw [harvest, if_pos hfj, foldl_addHref]
      rfl
    have hrest := ih l2 (acc ∪ (canonicalLinks site j).toFinset)
      (fun x hx => hok x (by simp [hx]))
    rcases hp : paginate site (t ++ k :: l2)
        (acc ∪ (canonicalLinks site j).toFinset) with ⟨r, tr⟩
    rw [hp] at hrest
    simp only at hrest
    simp only [List.cons_append, paginate, hcj, if_true, hh, List.append_eq, hp,
      List.foldl_cons]
    exact hrest

/-- The list `pageIndices` is empty when at most one page is requested. -/
lemma pageIndices_nil (pages : Int) (h : pages ≤ 1) : pageIndices pages = [] := by
  unfold pageIndices
  have h2 : max 2 (pages + 1) = 2 := max_eq_left (by omega)
  rw [h2]
  rfl

/-- Splitting `pageIndices` at a page `k` within range. -/
lemma pageIndices_split (pages : Int) (k : Nat) (h2 : 2 ≤ k)
    (hk : (k : Int) ≤ pages) :
    pageIndices pages =
      List.range' 2 (k - 2) ++ k :: List.range' (k + 1) (pages.toNat - k) := by
  unfold pageIndices
  have hmax : max 2 (pages + 1) = pages + 1 := max_eq_right (by omega)
  rw [hmax]
  have hlen : (pages + 1).toNat - 2 = ((pages.toNat - k) + 1) + (k - 2) := by omega
  rw [hlen, (List.range'_append_1 2 (k - 2) ((pages.toNat - k) + 1)).symm]
  have h2k : 2 + (k - 2) = k := by omega
  rw [h2k, List.range'_succ]
  

/- ------------------------------------------------------------------
Helper lemmas: the extractor loop.
------------------------------------------------------------------ -/

lemma foldl_scrape_eq_filterMap (env : String → DetailPage) :
    ∀ (l : List String) (acc : List JobRecord),
      l.foldl
        (fun recs url =>
          match scrape_job (env url) url with
          | some r => recs ++ [r]
          | none => recs) acc =
      acc ++ l.filterMap (fun url => scrape_job (env url) url) := by
  intro l
  induction l with
  | nil => intro acc; simp
  | cons u t ih =>
    intro acc
    cases hs : scrape_job (env u) u with
    | none => simp [List.foldl_cons, hs, List.filterMap_cons, ih]
    | some r => simp [List.foldl_cons, hs, List.filterMap_cons, ih]

/-- The per-link loop collects exactly the successfully scraped records,
in order. -/
lemma processLinks_filterMap (env : String → DetailPage) (l : List String) :
    processLinks env l = l.filterMap (fun url => scrape_job (env url) url) := by
  rw [processLinks, foldl_scrape_eq_filterMap]
  simp

/- ------------------------------------------------------------------
Claims C4, C5, C6: the Authwall Recovery Engine.
------------------------------------------------------------------ -/

/-- C4: when the engine observes the overlay, no dismissal control works,
and a sign-in control is found and activated, it invokes the Session
Authenticator (`login`) exactly once, then re-navigates to the URL that
was active before the overlay appeared, and only then re-checks the
overlay state — the emitted trace is exactly: positive modal check,
failed dismissal attempts, successful sign-in click(s), one login, one
navigation to `url`, one final modal re-check. (`0 < n` because with a
zero attempt budget the source line `attempts > 0 and is_authwall_modal`
short-circuits and skips the re-check.) -/
theorem authwall_reauth_path_single_login_then_renav {B : Type} (env : Browser B)
    (b0 b1 b2 : B) (trD trS : List AuthEvent) (url user pwd : String) (n : Int)
    (hn : 0 < n)
    (h0 : env.is_authwall_modal b0 = true)
    (hdis : tryDismiss env dismissSelectors b0 = (false, b1, trD))
    (hsig : signinPhase env b1 = (some b2, b2, trS))
    (hre : env.is_authwall_modal (env.get (env.login b2 user pwd) url) = false) :
    (clear_signin_overlay_or_reauth env url user pwd n b0).2 =
      .checkModal true :: trD ++ trS ++ [.loginEv, .navigateEv url, .checkModal false] ∧
    countLogins (clear_signin_overlay_or_reauth env url user pwd n b0).2 = 1 := by
  have hD := tryDismiss_countLogins env dismissSelectors b0
  rw [hdis] at hD
  simp only at hD
  have hS := signinPhase_countLogins env b1
  rw [hsig] at hS
  simp only at hS
  obtain ⟨m, hm⟩ : ∃ m, n.toNat = m + 1 := ⟨n.toNat - 1, by omega⟩
  have htr : (clear_signin_overlay_or_reauth env url user pwd n b0).2 =
      .checkModal true :: trD ++ trS
        ++ [.loginEv, .navigateEv url, .checkModal false] := by
    show (clearGo env url user pwd n.toNat b0).2 = _
    rw [hm, clearGo]
    simp [h0, hdis, hsig, hre]
  refine ⟨htr, ?_⟩
  rw [htr]
  simp [countLogins_cons, countLogins_append, countLogins_nil, hD, hS]

/-- Witness for C4 at a concrete browser and attempt budget 1. -/
theorem authwall_reauth_path_single_login_then_renav_witness :
    (clear_signin_overlay_or_reauth reauthBrowser "https://example.test/search"
        "u" "p" 1 0).2 =
      .checkModal true ::
        [.clickAttempt .dismissBtn false, .clickAttempt .closeBtn false,
          .clickAttempt .modalDismiss false]
        ++ [.clickAttempt .signInButton true]
        ++ [.loginEv, .navigateEv "https://example.test/search", .checkModal false] ∧
    countLogins (clear_signin_overlay_or_reauth reauthBrowser
        "https://example.test/search" "u" "p" 1 0).2 = 1 :=
  authwall_reauth_path_single_login_then_renav reauthBrowser 0 0 1
    [.clickAttempt .dismissBtn false, .clickAttempt .closeBtn false,
      .clickAttempt .modalDismiss false]
    [.clickAttempt .signInButton true]
    "https://example.test/search" "u" "p" 1
    (by decide) (by decide) (by decide) (by decide) (by decide)

/-- C5: when the engine observes the overlay and the dismissal loop
succeeds (a close/X click after which the re-check confirms the overlay
is gone), recovery completes with the dismissal trace alone: the
Session Authenticator is never invoked on this path, and the final
state has no overlay. -/
theorem authwall_dismiss_path_no_login {B : Type} (env : Browser B)
    (b0 b1 : B) (trD : List AuthEvent) (url user pwd : String) (n : Int)
    (h0 : env.is_authwall_modal b0 = true)
    (hdis : tryDismiss env dismissSelectors b0 = (true, b1, trD)) :
    clear_signin_overlay_or_reauth env url user pwd n b0 =
      (b1, .checkModal true :: trD) ∧
    countLogins (clear_signin_overlay_or_reauth env url user pwd n b0).2 = 0 ∧
    env.is_authwall_modal b1 = false := by
  have hD := tryDismiss_countLogins env dismissSelectors b0
  rw [hdis] at hD
  simp only at hD
  have heq : clear_signin_overlay_or_reauth env url user pwd n b0 =
      (b1, .checkModal true :: trD) := by
    show clearGo env url user pwd n.toNat b0 = _
    rw [clearGo]
    simp [h0, hdis]
  refine ⟨heq, ?_, tryDismiss_true_noModal env dismissSelectors b0 b1 trD hdis⟩
  rw [heq]
  simp [countLogins_cons, hD]

/-- Witness for C5 at a concrete browser. -/
theorem authwall_dismiss_path_no_login_witness :
    clear_signin_overlay_or_reauth dismissBrowser "https://example.test/search"
        "u" "p" 1 0 =
      (1, .checkModal true ::
        [.clickAttempt .dismissBtn true, .checkModal false]) ∧
    countLogins (clear_signin_overlay_or_reauth dismissBrowser
        "https://example.test/search" "u" "p" 1 0).2 = 0 ∧
    dismissBrowser.is_authwall_modal 1 = false :=
  authwall_dismiss_path_no_login dismissBrowser 0 1
    [.clickAttempt .dismissBtn true, .checkModal false]
    "https://example.test/search" "u" "p" 1 (by decide) (by decide)

/-- C6: for every attempt budget `n ≥ 0` and every behaviour of the page
(the environment is arbitrary, so the overlay may reappear after every
recovery), the recovery engine — a total function here, so every run
terminates — performs at most `n + 1` login cycles, each login paired
with exactly one re-navigation. -/
theorem authwall_recovery_login_bound {B : Type} (env : Browser B)
    (url user pwd : String) (n : Int) (_hn : 0 ≤ n) (b : B) :
    countLogins (clear_signin_overlay_or_reauth env url user pwd n b).2 ≤ n.toNat + 1 ∧
    countNavs (clear_signin_overlay_or_reauth env url user pwd n b).2 =
      countLogins (clear_signin_overlay_or_reauth env url user pwd n b).2 :=
  clearGo_login_le env url user pwd n.toNat b

/-- Witness for C6 at the stubborn browser with the default budget 1:
exactly two login cycles happen, within the bound of two. -/
theorem authwall_recovery_login_bound_witness :
    (countLogins (clear_signin_overlay_or_reauth stubbornBrowser
        "https://example.test/search" "u" "p" 1 0).2 ≤ (1 : Int).toNat + 1 ∧
      countNavs (clear_signin_overlay_or_reauth stubbornBrowser
          "https://example.test/search" "u" "p" 1 0).2 =
        countLogins (clear_signin_overlay_or_reauth stubbornBrowser
            "https://example.test/search" "u" "p" 1 0).2) ∧
    countLogins (clear_signin_overlay_or_reauth stubbornBrowser
        "https://example.test/search" "u" "p" 1 0).2 = 2 :=
  ⟨authwall_recovery_login_bound stubbornBrowser "https://example.test/search"
      "u" "p" 1 (by decide) 0,
    by decide⟩

/- ------------------------------------------------------------------
Claims C1, C2, C7, C10: the Pagination Harvester.
------------------------------------------------------------------ -/

/-- C1 counterexample: on a run whose pagination click succeeds, the
main-flow trace shows the Authwall Recovery Engine running once before
the page-1 read, but page 2 is read after the successful pagination
click with no recovery run in between: the claimed guard property
(`readsGuarded`, results read only when a recovery has happened since
the start or since the last pagination click) is violated. -/
theorem harvester_recovery_guard_fails :
    mainHarvestTrace paginatingSite 2 =
      [.recovery, .readResults 1, .pageClick 2, .readResults 2] ∧
    readsGuarded false (mainHarvestTrace paginatingSite 2) = false :=
  ⟨by decide, by decide⟩

/-- C1 (amended): the Authwall Recovery Engine is invoked once by the
main flow before results are read on the initial search page, but it
is never invoked by `collect_links` itself — in particular not after
pagination clicks, so pages after the first are read without a
preceding recovery run. -/
theorem harvester_recovery_only_initial (site : SearchSite) (pages : Int) :
    firstReadGuarded (mainHarvestTrace site pages) = true ∧
    HarvestEvent.recovery ∉ (collect_links site pages).2 :=
  ⟨rfl, collect_links_no_recovery site pages⟩

/-- C2: for every `maxPages ≥ 1` and every harvested href sequence, the
set `collect_links` returns (when it returns one) has no duplicates
(it is a `Finset`, mirroring the Python `set` of the source, and its
underlying multiset is nodup), every member has everything from the
first `?` on stripped, and its cardinality is at most the per-page
qualifying-link bound times the number of pages actually read. -/
theorem collect_links_canonical_card (site : SearchSite) (pages : Int) (L : Nat)
    (_hpages : 1 ≤ pages)
    (hL : ∀ p, (canonicalLinks site p).length ≤ L)
    (s : Finset String)
    (hok : (collect_links site pages).1 = .ok s) :
    (∀ u ∈ s, '?' ∉ u.data) ∧ s.val.Nodup ∧
    s.card ≤ L * countReads (collect_links site pages).2 := by
  cases hh : harvest site 1 ∅ with
  | error e =>
    simp only [collect_links, hh] at hok
    simp at hok
  | ok s1 =>
    have hs1 : s1 = (canonicalOf (site.anchors 1)).toFinset := by
      by_cases hcf : site.containerFound 1
      · rw [harvest, if_pos hcf] at hh
        rw [Except.ok.injEq] at hh
        rw [← hh, foldl_addHref]
        simp
      · rw [harvest, if_neg hcf] at hh
        cases hh
    have hmem1 : ∀ u ∈ s1, '?' ∉ u.data := by
      rw [hs1]
      intro u hu
      exact canonicalOf_noQuery _ u (List.mem_toFinset.mp hu)
    have hcard1 : s1.card ≤ L * 1 := by
      rw [hs1]
      calc (canonicalOf (site.anchors 1)).toFinset.card
          ≤ (canonicalOf (site.anchors 1)).length := List.toFinset_card_le _
        _ ≤ L := hL 1
        _ = L * 1 := (Nat.mul_one L).symm
    rcases hp : paginate site (pageIndices pages) s1 with ⟨r, tr⟩
    have hok1 : r = .ok s := by
      simp only [collect_links, hh, hp] at hok
      exact hok
    have hrec := paginate_noQuery_card site L hL (pageIndices pages) s1 1
      hmem1 hcard1 s (by rw [hp]; exact hok1)
    rw [hp] at hrec
    simp only at hrec
    refine ⟨hrec.1, s.nodup, ?_⟩
    have htr : (collect_links site pages).2 = .readResults 1 :: tr := by
      simp [collect_links, hh, hp]
    rw [htr]
    have hcnt : countReads (HarvestEvent.readResults 1 :: tr) = 1 + countReads tr := by
      simp [countReads_cons]
      omega
    rw [hcnt]
    exact hrec.2

/-- Witness for C2 on a concrete two-page site whose pages repeat one
qualifying link in two spellings (with and without a query string) next
to one non-qualifying link. -/
theorem collect_links_canonical_card_witness :
    (∀ u ∈ ({"https://www.linkedin.com/jobs/view/101"} : Finset String), '?' ∉ u.data) ∧
    ({"https://www.linkedin.com/jobs/view/101"} : Finset String).val.Nodup ∧
    ({"https://www.linkedin.com/jobs/view/101"} : Finset String).card ≤
      2 * countReads (collect_links richSite 2).2 :=
  collect_links_canonical_card richSite 2 2 (by decide)
    (by
      intro p
      have hconst : canonicalLinks richSite p =
          canonicalOf [" https://www.linkedin.com/jobs/view/101?refId=abc ",
            "https://www.linkedin.com/jobs/view/101",
            "https://careers.example.net/post/7"] := rfl
      rw [hconst]
      decide)
    {"https://www.linkedin.com/jobs/view/101"} (by decide)

/-- C7: if the pagination control for some page `k` in `2..maxPages` is
not found while the control and container of every earlier page resolved,
`collect_links` stops paginating early and returns the links of pages
`1..k-1` as a normal (non-error) result. -/
theorem collect_links_early_stop_ok (site : SearchSite) (pages : Int) (k : Nat)
    (h2 : 2 ≤ k) (hk : (k : Int) ≤ pages)
    (hfail : clickedPage site k = false)
    (hclick : ∀ j, 2 ≤ j → j < k → clickedPage site j = true)
    (hcont : ∀ j, 1 ≤ j → j < k → site.containerFound j = true) :
    (collect_links site pages).1 = .ok (visitedUnion site (k - 1)) := by
  have hh : harvest site 1 ∅ = .ok ((canonicalOf (site.anchors 1)).toFinset) := by
    rw [harvest, if_pos (hcont 1 (by omega) (by omega)), foldl_addHref]
    simp
  have hsplit := pageIndices_split pages k h2 hk
  have hstop := paginate_early_stop site k hfail (List.range' 2 (k - 2))
    (List.range' (k + 1) (pages.toNat - k)) ((canonicalOf (site.anchors 1)).toFinset)
    (by
      intro j hj
      rw [List.mem_range'_1] at hj
      exact ⟨hclick j hj.1 (by omega), hcont j (by omega) (by omega)⟩)
  have hcl : (collect_links site pages).1 =
      (paginate site (pageIndices pages)
        ((canonicalOf (site.anchors 1)).toFinset)).1 := by
    simp [collect_links, hh]
  rw [hcl, hsplit, hstop]
  congr 1
  rw [visitedUnion]
  have hk1 : k - 1 = (k - 2) + 1 := by omega
  rw [hk1, List.range'_succ]
  simp [canonicalLinks]

/-- Witness for C7 at the two-real-page site with `maxPages = 3`: the
page-3 control is missing, and the run returns the union of the page-1
and page-2 links without an error. -/
theorem collect_links_early_stop_ok_witness :
    (collect_links twoPageSite 3).1 = .ok (visitedUnion twoPageSite 2) :=
  collect_links_early_stop_ok twoPageSite 3 3 (by decide) (by decide) (by decide)
    (by intro j h1 h2; interval_cases j; decide)
    (by intro j h1 h2; interval_cases j <;> decide)

/-- C10: for every `pages ≤ 1` (including zero and negative values),
`collect_links` still harvests page 1 exactly once and returns its
links, with a trace showing a single result read and no pagination
click: the loop body is never entered because
`range(2, max(2, pages + 1))` is empty. -/
theorem collect_links_single_page (site : SearchSite) (pages : Int)
    (hp : pages ≤ 1) (hc : site.containerFound 1 = true) :
    collect_links site pages =
      (.ok ((canonicalLinks site 1).toFinset), [.readResults 1]) := by
  have hh : harvest site 1 ∅ = .ok ((canonicalOf (site.anchors 1)).toFinset) := by
    rw [harvest, if_pos hc, foldl_addHref]
    simp
  simp [collect_links, hh, pageIndices_nil pages hp, paginate, canonicalLinks]

/-- Witness for C10 at a concrete site with a negative page bound. -/
theorem collect_links_single_page_witness :
    collect_links onePageSite (-3) =
      (.ok ((canonicalLinks onePageSite 1).toFinset), [.readResults 1]) :=
  collect_links_single_page onePageSite (-3) (by decide) (by decide)

/- ------------------------------------------------------------------
Claims C3, C8, C9: the Detail Extractor.
------------------------------------------------------------------ -/

/-- C3: on a detail page that loads without error, `scrape_job` emits a
record only if at least one of title and description is non-empty:
when both are Python-falsy it returns no record; when the title is
falsy but a description resolves to non-empty text it returns the
record; and any emitted record has a non-falsy title or description. -/
theorem scrape_job_validity (page : DetailPage) (url : String)
    (h1 : page.pageError = false) (h2 : page.topCardPresent = true) :
    (pyFalsy (titleOf page) = true ∧ pyFalsy (descOf page) = true →
      scrape_job page url = none) ∧
    (pyFalsy (titleOf page) = true ∧ pyFalsy (descOf page) = false →
      scrape_job page url = some (scrapeRecord page url)) ∧
    (∀ r, scrape_job page url = some r →
      (pyFalsy r.job_title = false ∨ pyFalsy r.job_description = false)) := by
  refine ⟨?_, ?_, ?_⟩
  · rintro ⟨ht, hd⟩
    simp [scrape_job, h1, h2, ht, hd]
  · rintro ⟨ht, hd⟩
    simp [scrape_job, h1, h2, ht, hd]
  · intro r hr
    simp only [scrape_job, h1, h2, Bool.false_eq_true, if_false] at hr
    cases hx : pyFalsy (titleOf page) with
    | false =>
      left
      simp only [hx, Bool.false_and, Bool.false_eq_true, Bool.true_eq_false,
        if_false, Option.some.injEq] at hr
      rw [← hr]
      exact hx
    | true =>
      cases hy : pyFalsy (descOf page) with
      | false =>
        right
        simp only [hx, hy, Bool.true_and, Bool.false_eq_true, Bool.true_eq_false,
          if_false, Option.some.injEq] at hr
        rw [← hr]
        exact hy
      | true =>
        simp [hx, hy] at hr

/-- Witness for C3 at the description-only fixture page: the title is
falsy, the description resolves, and the record is emitted. -/
theorem scrape_job_validity_witness :
    (pyFalsy (titleOf descOnlyPage) = true ∧ pyFalsy (descOf descOnlyPage) = true →
      scrape_job descOnlyPage "https://www.linkedin.com/jobs/view/77" = none) ∧
    (pyFalsy (titleOf descOnlyPage) = true ∧ pyFalsy (descOf descOnlyPage) = false →
      scrape_job descOnlyPage "https://www.linkedin.com/jobs/view/77" =
        some (scrapeRecord descOnlyPage "https://www.linkedin.com/jobs/view/77")) ∧
    (∀ r, scrape_job descOnlyPage "https://www.linkedin.com/jobs/view/77" = some r →
      (pyFalsy r.job_title = false ∨ pyFalsy r.job_description = false)) :=
  scrape_job_validity descOnlyPage "https://www.linkedin.com/jobs/view/77"
    (by decide) (by decide)

/-- C8 counterexample: on the fixture page (title `Data Analyst`, no
description block, company present) `scrape_job` emits a record whose
description field is `none` — the Python record stores `None`, not the
empty string `""` the claim asserts. -/
theorem scrape_job_desc_is_none_not_empty :
    (scrape_job analystPage analystUrl).map JobRecord.job_description = some none ∧
    (some (none : Option String) ≠ some (some "")) :=
  ⟨by decide, by decide⟩

/-- C8 (amended): on the fixture detail page with title `Data Analyst`,
no description block, and a resolving company field, `scrape_job`
returns a record with that title, the description absent (`None`, the
the value the source stores when no description container exists — not `""`), the
company populated, and the url equal to the input URL. -/
theorem scrape_job_analyst_fixture :
    scrape_job analystPage analystUrl =
      some { job_title := some "Data Analyst"
             company_name := some "Acme Corp"
             company_location := none
             work_method := none
             post_date := none
             work_time := none
             job_description := none
             url := analystUrl } := by
  decide

/-- C9: a per-page failure inside `scrape_job` (the bounded wait for the
top card timing out, or any other exception) resolves to a no-record
outcome for that page, and the calling loop simply proceeds: dropping
a failing link from the worklist leaves the collected records
unchanged, so one bad page never aborts the run. -/
theorem scrape_failures_skip_link (env : String → DetailPage)
    (pre post : List String) (bad : String)
    (hbad : scrape_job (env bad) bad = none) :
    processLinks env (pre ++ bad :: post) = processLinks env (pre ++ post) ∧
    (∀ (p : DetailPage) (u : String), p.topCardPresent = false →
      scrape_job p u = none) ∧
    (∀ (p : DetailPage) (u : String), p.pageError = true →
      scrape_job p u = none) := by
  refine ⟨?_, ?_, ?_⟩
  · rw [processLinks_filterMap, processLinks_filterMap, List.filterMap_append,
      List.filterMap_append, List.filterMap_cons, hbad]
  · intro p u hp
    cases hpe : p.pageError <;> simp [scrape_job, hpe, hp]
  · intro p u hp
    simp [scrape_job, hp]

/-- Witness for C9 at the mixed-page environment: the middle link times
out and the two surrounding links are still collected. -/
theorem scrape_failures_skip_link_witness :
    processLinks mixedPages
        (["https://www.linkedin.com/jobs/view/1"] ++
          "https://www.linkedin.com/jobs/view/bad" ::
            ["https://www.linkedin.com/jobs/view/2"]) =
      processLinks mixedPages
        (["https://www.linkedin.com/jobs/view/1"] ++
          ["https://www.linkedin.com/jobs/view/2"]) ∧
    (∀ (p : DetailPage) (u : String), p.topCardPresent = false →
      scrape_job p u = none) ∧
    (∀ (p : DetailPage) (u : String), p.pageError = true →
      scrape_job p u = none) :=
  scrape_failures_skip_link mixedPages ["https://www.linkedin.com/jobs/view/1"]
    ["https://www.linkedin.com/jobs/view/2"] "https://www.linkedin.com/jobs/view/bad"
    (by decide)
